import Mathlib

/-!
Shallow embedding of `src/paxos/paxos.py` (class `Paxos` and its message
dataclasses), and theorems settling the frozen claims about it.

Modelling conventions:
* Python `int` is `Int` (`Nat` for list indices and counters).
* Python `dict` is an association list `List (Int × α)`; `dict[k]` lookup is
  `dlookup`, mutation of an entry aliased by a local variable (`state = d[seq];
  state.np = n`) is `dictUpdate` (never inserts), assignment `d[k] = v` is
  `dictInsert`.
* A method that can raise returns `PaxosState × Except PyError α`: the first
  component is the peer state at the moment the method returns or raises
  (Python mutations performed before a raise are kept).
* The discrete-event substrate (`env`, `Store`, timers, packet timestamps and
  sizes) is outside the embedded core; outbound packets are returned as lists.
-/

/-- Python exceptions that the embedded methods can raise. -/
inductive PyError where
  | keyError
  | valueError
  | indexError
  | runtimeError
  | assertionError
deriving DecidableEq, Repr

deriving instance DecidableEq for Except

/-- `Fate` enum from `paxos.py`. -/
inductive Fate where
  | decided
  | pending
  | forgotten
deriving DecidableEq, Repr

/-- `PrepareRequest(instance, proposal)`. -/
structure PrepareRequestMsg where
  inst : Int
  proposal : Int
deriving DecidableEq, Repr

/-- `PrepareReply(instance, ok, proposal, value)`. -/
structure PrepareReplyMsg where
  inst : Int
  ok : Bool
  proposal : Int
  value : String
deriving DecidableEq, Repr

/-- `AcceptRequest(instance, proposal, value)`. -/
structure AcceptRequestMsg where
  inst : Int
  proposal : Int
  value : String
deriving DecidableEq, Repr

/-- `AcceptReply(instance, ok)`. -/
structure AcceptReplyMsg where
  inst : Int
  ok : Bool
deriving DecidableEq, Repr

/-- `DecidedRequest(instance, sender, done_seq, value)`. -/
structure DecidedRequestMsg where
  inst : Int
  sender : Nat
  done_seq : Int
  value : String
deriving DecidableEq, Repr

/-- The payload of a packet: one of the message dataclasses (all subclasses of
`Instance` in the source). -/
inductive Payload where
  | prepareRequest (m : PrepareRequestMsg)
  | prepareReply (m : PrepareReplyMsg)
  | acceptRequest (m : AcceptRequestMsg)
  | acceptReply (m : AcceptReplyMsg)
  | decidedRequest (m : DecidedRequestMsg)
  | decidedReply (inst : Int)
deriving DecidableEq, Repr

/-- `payload.instance`: every payload carries the instance number. -/
def Payload.inst : Payload → Int
  | .prepareRequest m => m.inst
  | .prepareReply m => m.inst
  | .acceptRequest m => m.inst
  | .acceptReply m => m.inst
  | .decidedRequest m => m.inst
  | .decidedReply i => i

/-- A network packet (`onl.packet.Packet`): only the fields the Paxos core
reads (`packet_id`, `src`, `dst`, `payload`); timestamp and size are not
consulted by any handler. -/
structure Packet where
  packet_id : Int
  src : String
  dst : String
  payload : Payload
deriving DecidableEq, Repr

/-- Acceptor `State(np, na, va)` dataclass. -/
structure State where
  np : Int
  na : Int
  va : String
deriving DecidableEq, Repr

/-- `ProposeInfo` dataclass; `finish_channel` (a simulation `Store` used only
for coroutine synchronisation) is outside the embedded state. -/
structure ProposeInfo where
  packet_id : Int
  maxna : Int := 0
  v1 : String := ""
  prepare_count : Nat := 0
  prepared : Bool := false
  accept_count : Nat := 0
  accepted : Bool := false
deriving DecidableEq, Repr

/-- `ProposeInfo.reset`. -/
def ProposeInfo.reset (t : ProposeInfo) : ProposeInfo :=
  { t with maxna := 0, v1 := "", prepare_count := 0, prepared := false,
           accept_count := 0, accepted := false }

/-- Association-list lookup, the embedding of Python `k in d` / `d[k]`. -/
def dlookup (d : List (Int × α)) (k : Int) : Option α :=
  match d with
  | [] => none
  | (k', v) :: rest => if k' = k then some v else dlookup rest k

/-- Mutation of the entry at `k` through an alias (`state = d[seq]; state.x =
v`): rewrites the entry if present, never inserts. -/
def dictUpdate (d : List (Int × α)) (k : Int) (v : α) : List (Int × α) :=
  d.map (fun p => if p.1 = k then (k, v) else p)

/-- Python `d[k] = v`: overwrite in place if the key exists (order kept),
otherwise append. -/
def dictInsert (d : List (Int × α)) (k : Int) (v : α) : List (Int × α) :=
  if (dlookup d k).isSome then dictUpdate d k v else d ++ [(k, v)]

/-- Python `del d[k]`. -/
def dictErase (d : List (Int × α)) (k : Int) : List (Int × α) :=
  d.filter (fun p => p.1 ≠ k)

/-- The mutable state of one `Paxos` peer (fields of `Paxos.__init__`;
`env`, `phase_restart_time`, `debug` and the two `Store` tables drive only
the simulation machinery, not the protocol data model). -/
structure PaxosState where
  peers : List String
  me : Nat
  id : String
  packet_id : Int
  max_seq_seen : Int
  done_seqs : List Int
  values : List (Int × String)
  accept_state : List (Int × State)
  propose_data : List (Int × ProposeInfo)
deriving DecidableEq, Repr

/-- `Paxos.__init__`: every table starts empty, counters at zero.
`self.id = peers[me]` raises `IndexError` when `me` is out of range; the
claims only construct in-range peers, so `id` uses the total `getD`. -/
def init (peers : List String) (me : Nat) : PaxosState :=
  { peers := peers
    me := me
    id := peers.getD me ""
    packet_id := 0
    max_seq_seen := 0
    done_seqs := []
    values := []
    accept_state := []
    propose_data := [] }

/-- `min(xs)` on a Python list: `ValueError` (here `none`) when empty. -/
def listMin : List Int → Option Int
  | [] => none
  | x :: xs =>
    match listMin xs with
    | none => some x
    | some m => some (Min.min x m)

/-- `Paxos.do_mem_shrink`: `mins = min(self.done_seqs)` raises `ValueError`
on the empty list; the loop `for seq in self.accept_state.keys(): del ...`
raises `RuntimeError` (dictionary changed size during iteration) as soon as
it deletes an entry — and deleting from `self.values` raises `KeyError`
first when the instance is absent there. Both raising branches leave the
tables partially mutated; no claim exercises them, so the error alone is
reported. -/
def do_mem_shrink (s : PaxosState) : PaxosState × Except PyError Int :=
  match listMin s.done_seqs with
  | none => (s, .error .valueError)
  | some mins =>
    match s.accept_state.find? (fun p => p.1 ≤ mins) with
    | some (seq, _) =>
      if (dlookup s.values seq).isSome then
        ({ s with accept_state := dictErase s.accept_state seq,
                  values := dictErase s.values seq }, .error .runtimeError)
      else
        ({ s with accept_state := dictErase s.accept_state seq }, .error .keyError)
    | none => (s, .ok (mins + 1))

/-- `Paxos.min`: `return self.do_mem_shrink() + 1`. -/
def minFn (s : PaxosState) : PaxosState × Except PyError Int :=
  match do_mem_shrink s with
  | (s', .ok m) => (s', .ok (m + 1))
  | (s', .error e) => (s', .error e)

/-- `Paxos.status(seq)`. -/
def status (s : PaxosState) (seq : Int) : PaxosState × Except PyError (Fate × String) :=
  match minFn s with
  | (s', .error e) => (s', .error e)
  | (s', .ok m) =>
    if seq < m then (s', .ok (.forgotten, ""))
    else
      match dlookup s'.values seq with
      | some v => (s', .ok (.decided, v))
      | none => (s', .ok (.pending, ""))

/-- `Paxos.new_packet(payload, dst)`: bump `self.packet_id`, stamp `src` with
this peer's id. -/
def new_packet (s : PaxosState) (payload : Payload) (dst : String) :
    PaxosState × Packet :=
  let s' := { s with packet_id := s.packet_id + 1 }
  (s', { packet_id := s'.packet_id, src := s.id, dst := dst, payload := payload })

/-- `Paxos.send_packet_to(payload, peer)`: no packet is built (and the id
counter not bumped) when the destination is this peer itself. -/
def send_packet_to (s : PaxosState) (payload : Payload) (peer : String) :
    PaxosState × List Packet :=
  if peer = s.id then (s, [])
  else
    let (s', pkt) := new_packet s payload peer
    (s', [pkt])

/-- Acceptor core of `Paxos.recv_prepare` (the branch on `n > state.np`):
on success the promise `np` is raised and the affirmative reply carries the
current `na` (in the reply's `proposal` field) and `va`; on rejection the
state is untouched and the reply is `PrepareReply(seq, False, 0, "")` —
literal `0` and empty value, not the acceptor's `np`. -/
def prepare_step (st : State) (seq n : Int) : State × PrepareReplyMsg :=
  if n > st.np then ({ st with np := n }, ⟨seq, true, st.na, st.va⟩)
  else (st, ⟨seq, false, 0, ""⟩)

/-- Acceptor core of `Paxos.recv_accept` (the branch on `n >= state.np`). -/
def accept_step (st : State) (seq n : Int) (v : String) : State × AcceptReplyMsg :=
  if n ≥ st.np then ({ np := n, na := n, va := v }, ⟨seq, true⟩)
  else (st, ⟨seq, false⟩)

/-- `Paxos.recv_prepare(packet)`: update `max_seq_seen`, look up
`self.accept_state[seq]` (KeyError when absent — the table is never
populated by any method), run the promise branch, send the reply to
`packet.src`. -/
def recv_prepare (s : PaxosState) (p : Packet) (m : PrepareRequestMsg) :
    PaxosState × Except PyError (List Packet) :=
  let seq := m.inst
  let n := m.proposal
  let s := if seq > s.max_seq_seen then { s with max_seq_seen := seq } else s
  match dlookup s.accept_state seq with
  | none => (s, .error .keyError)
  | some st =>
    let (st', reply) := prepare_step st seq n
    let s := { s with accept_state := dictUpdate s.accept_state seq st' }
    let (s, outs) := send_packet_to s (.prepareReply reply) p.src
    (s, .ok outs)

/-- `Paxos.recv_accept(packet)` (note: unlike `recv_prepare`, it does not
touch `max_seq_seen`). -/
def recv_accept (s : PaxosState) (p : Packet) (m : AcceptRequestMsg) :
    PaxosState × Except PyError (List Packet) :=
  let seq := m.inst
  match dlookup s.accept_state seq with
  | none => (s, .error .keyError)
  | some st =>
    let (st', reply) := accept_step st seq m.proposal m.value
    let s := { s with accept_state := dictUpdate s.accept_state seq st' }
    let (s, outs) := send_packet_to s (.acceptReply reply) p.src
    (s, .ok outs)

/-- Proposer tally for one affirmative prepare reply (`recv_prepare_reply`,
`reply.ok` branch): best-seen `(maxna, v1)` update, counter bump, then the
quorum test `prepare_count > len(self.peers) / 2` — Python true division,
rendered exactly as `2 * count > peerCount` over integers. -/
def tally_prepare (t : ProposeInfo) (m : PrepareReplyMsg) (peerCount : Nat) :
    ProposeInfo :=
  let t := if m.proposal > t.maxna then { t with maxna := m.proposal, v1 := m.value } else t
  let t := { t with prepare_count := t.prepare_count + 1 }
  if 2 * t.prepare_count > peerCount then { t with prepared := true } else t

/-- Proposer tally for one affirmative accept reply (`recv_accept_reply`,
`reply.ok` branch). -/
def tally_accept (t : ProposeInfo) (peerCount : Nat) : ProposeInfo :=
  let t := { t with accept_count := t.accept_count + 1 }
  if 2 * t.accept_count > peerCount then { t with accepted := true } else t

/-- `Paxos.recv_prepare_reply(packet)`: affirmative replies are tallied into
`propose_data[seq]`; a negative reply bumps this peer's own
`accept_state[seq].np` up to the reply's `proposal` field. -/
def recv_prepare_reply (s : PaxosState) (m : PrepareReplyMsg) :
    PaxosState × Except PyError Unit :=
  match dlookup s.propose_data m.inst with
  | none => (s, .error .keyError)
  | some temp =>
    if m.ok then
      ({ s with propose_data :=
           dictUpdate s.propose_data m.inst (tally_prepare temp m s.peers.length) },
       .ok ())
    else
      match dlookup s.accept_state m.inst with
      | none => (s, .error .keyError)
      | some st =>
        if m.proposal > st.np then
          ({ s with accept_state :=
               dictUpdate s.accept_state m.inst { st with np := m.proposal } },
           .ok ())
        else (s, .ok ())

/-- `Paxos.recv_accept_reply(packet)`. -/
def recv_accept_reply (s : PaxosState) (m : AcceptReplyMsg) :
    PaxosState × Except PyError Unit :=
  match dlookup s.propose_data m.inst with
  | none => (s, .error .keyError)
  | some temp =>
    if m.ok then
      ({ s with propose_data :=
           dictUpdate s.propose_data m.inst (tally_accept temp s.peers.length) },
       .ok ())
    else (s, .ok ())

/-- `Paxos.recv_decided_request(packet)`: `self.values[seq] = value` happens
first, then `self.done_seqs[request.sender]` is read — `IndexError` when the
sender index is out of range (`done_seqs` starts empty and is never
appended to), with the `values` write already performed. -/
def recv_decided_request (s : PaxosState) (m : DecidedRequestMsg) :
    PaxosState × Except PyError Unit :=
  let s := { s with values := dictInsert s.values m.inst m.value }
  match s.done_seqs.get? m.sender with
  | none => (s, .error .indexError)
  | some z =>
    if z < m.done_seq then
      ({ s with done_seqs := s.done_seqs.set m.sender m.done_seq }, .ok ())
    else (s, .ok ())

/-- `Paxos.broadcast_prepare_request(seq, n)`: build the broadcast packet
(`dst = ""`), enqueue it, overwrite `propose_data[seq]` with a fresh
`ProposeInfo` holding the packet id as round token, then run the local
acceptor on the packet. -/
def broadcast_prepare_request (s : PaxosState) (seq n : Int) :
    PaxosState × Except PyError (List Packet) :=
  let (s, pkt) := new_packet s (.prepareRequest ⟨seq, n⟩) ""
  let s := { s with propose_data := dictInsert s.propose_data seq { packet_id := pkt.packet_id } }
  let (s, e) := recv_prepare s pkt ⟨seq, n⟩
  match e with
  | .error err => (s, .error err)
  | .ok outs => (s, .ok (pkt :: outs))

/-- `Paxos.broadcast_accept_request(seq, n, v)`: asserts `seq in
self.propose_data`, broadcasts `AcceptRequest(seq, n, v)` and runs the local
acceptor on it. -/
def broadcast_accept_request (s : PaxosState) (seq n : Int) (v : String) :
    PaxosState × Except PyError (List Packet) :=
  if (dlookup s.propose_data seq).isSome then
    let (s, pkt) := new_packet s (.acceptRequest ⟨seq, n, v⟩) ""
    let (s, e) := recv_accept s pkt ⟨seq, n, v⟩
    match e with
    | .error err => (s, .error err)
    | .ok outs => (s, .ok (pkt :: outs))
  else (s, .error .assertionError)

/-- `Paxos.broadcast_decide_request(seq, v)`: the message carries
`self.done_seqs[self.me]` (IndexError on a fresh peer, whose `done_seqs` is
empty), is broadcast, and handed to the local learner. -/
def broadcast_decide_request (s : PaxosState) (seq : Int) (v : String) :
    PaxosState × Except PyError (List Packet) :=
  match s.done_seqs.get? s.me with
  | none => (s, .error .indexError)
  | some d =>
    let (s, pkt) := new_packet s (.decidedRequest ⟨seq, s.me, d, v⟩) ""
    let (s, e) := recv_decided_request s ⟨seq, s.me, d, v⟩
    match e with
    | .error err => (s, .error err)
    | .ok _ => (s, .ok [pkt])

/-- The first segment of the generator body of `Paxos.propose(seq, v)`, up to
the first `yield` (lines 142-147): read `self.accept_state[seq].np`
(KeyError — the table is never populated), pick `n = np + 1`, broadcast the
prepare request and register the round. Returns the chosen `n` and the
outbound packets. The retry timer (`propose_timeout`) is simulation
machinery and not part of the state transition. -/
def propose_prepare_phase (s : PaxosState) (seq : Int) :
    PaxosState × Except PyError (Int × List Packet) :=
  match dlookup s.accept_state seq with
  | none => (s, .error .keyError)
  | some st =>
    let n := st.np + 1
    let (s, e) := broadcast_prepare_request s seq n
    match e with
    | .error err => (s, .error err)
    | .ok outs => (s, .ok (n, outs))

/-- `Paxos.start(seq, v)`: raise `max_seq_seen`, then line 129 evaluates
`self.propose(seq, v)` — `propose` is a generator function (its body
contains `yield`), so this call only constructs a generator object, which is
discarded; not one statement of `propose`'s body runs, no packet is sent,
no timer armed. -/
def start (s : PaxosState) (seq : Int) (v : String) : PaxosState × List Packet :=
  let s := if seq > s.max_seq_seen then { s with max_seq_seen := seq } else s
  (s, [])

/-- `Paxos.put(packet)`: the inbound dispatcher. The first assert compares
`packet.dst` (a string) with `self.me` (an int); in Python a str never
equals an int, so the assert reduces to `dst == ""`. Then
`self.propose_data[seq]` is read (KeyError when this peer has no round for
`seq`), and ANY payload whose `packet_id` differs from the round token is
dropped — requests included. -/
def put (s : PaxosState) (p : Packet) : PaxosState × Except PyError (List Packet) :=
  if p.dst ≠ "" then (s, .error .assertionError)
  else
    let seq := p.payload.inst
    match dlookup s.propose_data seq with
    | none => (s, .error .keyError)
    | some temp =>
      if p.packet_id ≠ temp.packet_id then (s, .ok [])
      else
        match p.payload with
        | .prepareRequest m => recv_prepare s p m
        | .acceptRequest m => recv_accept s p m
        | .prepareReply m =>
          let (s, e) := recv_prepare_reply s m
          (s, e.map (fun _ => []))
        | .acceptReply m =>
          let (s, e) := recv_accept_reply s m
          (s, e.map (fun _ => []))
        | .decidedRequest m =>
          let (s, e) := recv_decided_request s m
          (s, e.map (fun _ => []))
        | .decidedReply _ => (s, .ok [])

/-- The dispatch switch of `Paxos.put` (lines 320-329): route a delivered
packet to the handler matching its payload type. `put` itself runs this only
after its packet-id filter; the trace below feeds delivered packets through
the switch directly, modelling the delivery of each message to its handler. -/
def dispatch (s : PaxosState) (p : Packet) : PaxosState × Except PyError (List Packet) :=
  match p.payload with
  | .prepareRequest m => recv_prepare s p m
  | .acceptRequest m => recv_accept s p m
  | .prepareReply m =>
    let (s, e) := recv_prepare_reply s m
    (s, e.map (fun _ => []))
  | .acceptReply m =>
    let (s, e) := recv_accept_reply s m
    (s, e.map (fun _ => []))
  | .decidedRequest m =>
    let (s, e) := recv_decided_request s m
    (s, e.map (fun _ => []))
  | .decidedReply _ => (s, .ok [])

/-- A placeholder packet used only as the default of `headD`. -/
def noPacket : Packet := { packet_id := 0, src := "", dst := "", payload := .decidedReply 0 }

/-- First outbound packet of a handler result. -/
def firstOut (r : PaxosState × Except PyError (List Packet)) : Packet :=
  (r.2.toOption.getD []).headD noPacket

/-- First outbound packet of a `propose_prepare_phase` result. -/
def firstPrepOut (r : PaxosState × Except PyError (Int × List Packet)) : Packet :=
  ((r.2.toOption.map (fun q => q.2)).getD []).headD noPacket

/-- A three-peer configuration in the state the intended initialisation
implies (the spec's defaultdict-style acceptor entry `np=0, na=0, va=""` for
instance 7 present, done watermark -1 per peer as `Paxos.min`'s docstring
describes); the literal `__init__` leaves these tables empty, which only
makes every handler raise before reaching the logic exercised here. -/
def tracePeer (i : Nat) : PaxosState :=
  { init ["A", "B", "C"] i with
      done_seqs := [-1, -1, -1]
      accept_state := [(7, { np := 0, na := 0, va := "" })] }

/-- An interleaving of deliveries of the messages the handlers themselves
emit, in which peer 0 runs a full round for instance 7 with value "x"
(its Decided broadcast reaching only itself) and peer 1 then runs a full
round with value "y". Returns the final states of peers 0 and 1. -/
def c1Trace : PaxosState × PaxosState :=
  let p0 := tracePeer 0
  let p1 := tracePeer 1
  let p2 := tracePeer 2
  -- round 1: peer 0 proposes "x"
  let r1 := propose_prepare_phase p0 7
  let p0 := r1.1
  let bc1 := firstPrepOut r1
  let d1 := dispatch p1 bc1
  let p1 := d1.1
  let d2 := dispatch p2 bc1
  let p2 := d2.1
  let p0 := (dispatch p0 (firstOut d1)).1
  let p0 := (dispatch p0 (firstOut d2)).1
  let r2 := broadcast_accept_request p0 7 1 "x"
  let p0 := r2.1
  let bc2 := firstOut r2
  let d3 := dispatch p1 bc2
  let p1 := d3.1
  let d4 := dispatch p2 bc2
  let p2 := d4.1
  let p0 := (dispatch p0 (firstOut d3)).1
  let p0 := (dispatch p0 (firstOut d4)).1
  let r3 := broadcast_decide_request p0 7 "x"
  let p0 := r3.1
  -- the Decided broadcast of round 1 reaches no other peer (delivery is not
  -- guaranteed); round 2: peer 1 proposes "y"
  let r4 := propose_prepare_phase p1 7
  let p1 := r4.1
  let bc3 := firstPrepOut r4
  let d5 := dispatch p2 bc3
  let p2 := d5.1
  let d6 := dispatch p0 bc3
  let p0 := d6.1
  let p1 := (dispatch p1 (firstOut d5)).1
  let p1 := (dispatch p1 (firstOut d6)).1
  let r5 := broadcast_accept_request p1 7 2 "y"
  let p1 := r5.1
  let bc4 := firstOut r5
  let d7 := dispatch p2 bc4
  let d8 := dispatch p0 bc4
  let p0 := d8.1
  let p1 := (dispatch p1 (firstOut d7)).1
  let p1 := (dispatch p1 (firstOut d8)).1
  let r6 := broadcast_decide_request p1 7 "y"
  let p1 := r6.1
  (p0, p1)

/-- Peer B with an active round for instance 7 and an acceptor entry, used to
exercise the accept-phase value choice. -/
def c2Peer : PaxosState :=
  { init ["A", "B", "C"] 1 with
      accept_state := [(7, { np := 2, na := 0, va := "" })]
      propose_data := [(7, { packet_id := 1 })] }

/-- `c2Peer` after tallying two affirmative prepare replies, the first
reporting the previously accepted pair `(na = 5, va = "x")`: the round is
prepared and holds `maxna = 5, v1 = "x"`. -/
def c2Prepared : PaxosState :=
  (recv_prepare_reply (recv_prepare_reply c2Peer ⟨7, true, 5, "x"⟩).1 ⟨7, true, 0, ""⟩).1

/-- Peer A holding a round token 1 for instance 7 and an acceptor entry. -/
def c3Peer : PaxosState :=
  { init ["A", "B", "C"] 0 with
      accept_state := [(7, { np := 0, na := 0, va := "" })]
      propose_data := [(7, { packet_id := 1 })] }

/-- A broadcast `PrepareRequest(7, 9)` from peer B whose packet id (5) differs
from the round token (1) that `c3Peer` holds for instance 7. -/
def c3Pkt : Packet :=
  { packet_id := 5, src := "B", dst := "", payload := .prepareRequest ⟨7, 9⟩ }

/-- Peer A whose acceptor entry for instance 7 is `np = 5, na = 3, va = "x"`. -/
def c5Peer : PaxosState :=
  { init ["A", "B", "C"] 0 with accept_state := [(7, { np := 5, na := 3, va := "x" })] }

/-- Peer A whose acceptor entry for instance 7 is `np = 5, na = 5, va = "x"`
(the state reached after accepting proposal 5 with value "x"). -/
def c6Peer : PaxosState :=
  { init ["A", "B", "C"] 0 with accept_state := [(7, { np := 5, na := 5, va := "x" })] }

/-- Peer A with a fresh round (token 1) for instance 7 among 3 peers. -/
def c7Peer : PaxosState :=
  { init ["A", "B", "C"] 0 with propose_data := [(7, { packet_id := 1 })] }

/-- One affirmative prepare reply for instance 7; delivering the very same
message twice models a duplicated reply from one single peer. -/
def c7Reply : PrepareReplyMsg := ⟨7, true, 0, ""⟩

/-- A single-peer configuration with an active round, where one affirmative
reply is already a quorum. -/
def c7Solo : PaxosState :=
  { init ["A"] 0 with propose_data := [(7, { packet_id := 1 })] }

/-- Peer A with done watermark list `[3]` and empty tables. -/
def c8Peer : PaxosState := { init ["A", "B", "C"] 0 with done_seqs := [3] }

/-- A freshly constructed three-peer instance (`Paxos.__init__` verbatim). -/
def freshPeer : PaxosState := init ["A", "B", "C"] 0

/-- Peer A with an active round for instance 7 but no acceptor entry, the
shape reaching the reject branch of `recv_prepare_reply`. -/
def c9Peer : PaxosState :=
  { init ["A", "B", "C"] 0 with propose_data := [(7, { packet_id := 1 })] }

/-! ### Helper lemmas (shared) -/

theorem dlookup_dictUpdate (d : List (Int × α)) (k : Int) (v : α) (k' : Int) :
    dlookup (dictUpdate d k v) k' =
      if k' = k then (dlookup d k').map (fun _ => v) else dlookup d k' := by
  induction d with
  | nil => simp [dictUpdate, dlookup]
  | cons hd tl ih =>
    obtain ⟨a, b⟩ := hd
    show dlookup ((if a = k then (k, v) else (a, b)) :: dictUpdate tl k v) k' = _
    by_cases h1 : a = k
    · subst h1
      rw [if_pos rfl]
      by_cases h2 : a = k'
      · subst h2
        simp [dlookup]
      · have h2' : ¬ (k' = a) := fun h => h2 h.symm
        simp [dlookup, h2, h2', ih]
    · rw [if_neg h1]
      by_cases h2 : a = k'
      · subst h2
        have h1' : ¬ (a = k) := h1
        simp [dlookup, h1']
      · have h2' : ¬ (k' = a) := fun h => h2 h.symm
        simp [dlookup, h2, h2', ih]

theorem isSome_dlookup_dictUpdate (d : List (Int × α)) (k : Int) (v : α) (k' : Int) :
    (dlookup (dictUpdate d k v) k').isSome = (dlookup d k').isSome := by
  rw [dlookup_dictUpdate]
  by_cases h : k' = k
  · subst h; split <;> simp_all
  · simp [h]

theorem dlookup_dictErase (d : List (Int × α)) (k k' : Int) :
    dlookup (dictErase d k) k' = if k' = k then none else dlookup d k' := by
  induction d with
  | nil => simp [dictErase, dlookup]
  | cons hd tl ih =>
    obtain ⟨a, b⟩ := hd
    by_cases h1 : a = k
    · subst h1
      have hstep : dictErase ((a, b) :: tl) a = dictErase tl a := by
        simp [dictErase]
      rw [hstep, ih]
      by_cases h2 : k' = a
      · simp [h2]
      · have h2' : ¬ (a = k') := fun h => h2 h.symm
        simp [dlookup, h2, h2']
    · have hstep : dictErase ((a, b) :: tl) k = (a, b) :: dictErase tl k := by
        simp [dictErase, h1]
      rw [hstep]
      by_cases h2 : a = k'
      · subst h2
        have h1' : ¬ (a = k) := h1
        simp [dlookup, h1']
      · have h2' : ¬ (k' = k) → dlookup tl k' = dlookup tl k' := fun _ => rfl
        simp [dlookup, h2, ih]

theorem send_packet_to_fields (s : PaxosState) (pl : Payload) (peer : String) :
    (send_packet_to s pl peer).1.accept_state = s.accept_state ∧
    (send_packet_to s pl peer).1.propose_data = s.propose_data ∧
    (send_packet_to s pl peer).1.done_seqs = s.done_seqs ∧
    (send_packet_to s pl peer).1.values = s.values := by
  unfold send_packet_to new_packet
  split <;> simp

theorem recv_prepare_accept_state (s : PaxosState) (p : Packet) (m : PrepareRequestMsg) :
    (recv_prepare s p m).1.accept_state = s.accept_state ∨
    ∃ st, (recv_prepare s p m).1.accept_state = dictUpdate s.accept_state m.inst st := by
  have hacc : (if m.inst > s.max_seq_seen then { s with max_seq_seen := m.inst } else s).accept_state
      = s.accept_state := by split <;> rfl
  simp only [recv_prepare]
  rcases h : dlookup (if m.inst > s.max_seq_seen then { s with max_seq_seen := m.inst } else s).accept_state m.inst with _ | st
  · simp only [h]
    left
    exact hacc
  · simp only [h]
    rcases hps : prepare_step st m.inst m.proposal with ⟨st', reply⟩
    simp only [hps]
    right
    refine ⟨st', ?_⟩
    rw [(send_packet_to_fields _ _ _).1]
    simp [hacc]

theorem recv_accept_accept_state (s : PaxosState) (p : Packet) (m : AcceptRequestMsg) :
    (recv_accept s p m).1.accept_state = s.accept_state ∨
    ∃ st, (recv_accept s p m).1.accept_state = dictUpdate s.accept_state m.inst st := by
  simp only [recv_accept]
  rcases h : dlookup s.accept_state m.inst with _ | st
  · simp only [h]
    left
    trivial
  · simp only [h]
    rcases hps : accept_step st m.inst m.proposal m.value with ⟨st', reply⟩
    simp only [hps]
    right
    refine ⟨st', ?_⟩
    rw [(send_packet_to_fields _ _ _).1]

theorem recv_prepare_reply_accept_state (s : PaxosState) (m : PrepareReplyMsg) :
    (recv_prepare_reply s m).1.accept_state = s.accept_state ∨
    ∃ st, (recv_prepare_reply s m).1.accept_state = dictUpdate s.accept_state m.inst st := by
  simp only [recv_prepare_reply]
  rcases h : dlookup s.propose_data m.inst with _ | temp
  · simp only [h]; left; trivial
  · simp only [h]
    by_cases hok : m.ok
    · simp only [hok, if_true]; left; trivial
    · simp only [hok, if_false, Bool.false_eq_true, reduceIte]
      rcases h2 : dlookup s.accept_state m.inst with _ | st
      · simp only [h2]; left; trivial
      · simp only [h2]
        by_cases h3 : m.proposal > st.np
        · simp only [h3, if_true, reduceIte]
          right
          exact ⟨{ st with np := m.proposal }, rfl⟩
        · simp only [h3, if_false, reduceIte]
          left
          trivial

theorem recv_accept_reply_accept_state (s : PaxosState) (m : AcceptReplyMsg) :
    (recv_accept_reply s m).1.accept_state = s.accept_state := by
  simp only [recv_accept_reply]
  rcases h : dlookup s.propose_data m.inst with _ | temp
  · simp only [h]
  · simp only [h]
    by_cases hok : m.ok
    · simp only [hok, if_true]
    · simp only [hok, if_false, Bool.false_eq_true, reduceIte]

theorem recv_decided_request_accept_state (s : PaxosState) (m : DecidedRequestMsg) :
    (recv_decided_request s m).1.accept_state = s.accept_state := by
  simp only [recv_decided_request]
  rcases h : ({ s with values := dictInsert s.values m.inst m.value } : PaxosState).done_seqs.get? m.sender with _ | z
  · simp only [h]
  · simp only [h]
    by_cases h2 : z < m.done_seq
    · simp only [h2, if_true, reduceIte]
    · simp only [h2, if_false, reduceIte]

theorem do_mem_shrink_accept_state (s : PaxosState) (k : Int) :
    (dlookup (do_mem_shrink s).1.accept_state k).isSome = true →
    (dlookup s.accept_state k).isSome = true := by
  intro h
  simp only [do_mem_shrink] at h
  rcases hmin : listMin s.done_seqs with _ | mins
  · simpa [hmin] using h
  · simp only [hmin] at h
    rcases hfind : s.accept_state.find? (fun p => p.1 ≤ mins) with _ | q
    · simpa [hfind] using h
    · obtain ⟨seq, st⟩ := q
      simp only [hfind] at h
      by_cases hv : (dlookup s.values seq).isSome
      · simp only [hv, if_true, reduceIte] at h
        rw [dlookup_dictErase] at h
        by_cases hk : k = seq
        · simp [hk] at h
        · simpa [hk] using h
      · simp only [hv, if_false, Bool.false_eq_true, reduceIte] at h
        rw [dlookup_dictErase] at h
        by_cases hk : k = seq
        · simp [hk] at h
        · simpa [hk] using h

theorem put_accept_state (s : PaxosState) (p : Packet) (k : Int) :
    (dlookup (put s p).1.accept_state k).isSome = true →
    (dlookup s.accept_state k).isSome = true := by
  intro h
  simp only [put] at h
  by_cases hdst : p.dst = ""
  · simp only [hdst, ne_eq, not_true_eq_false, reduceIte] at h
    rcases hpd : dlookup s.propose_data p.payload.inst with _ | temp
    · simpa [hpd] using h
    · simp only [hpd] at h
      by_cases hid : p.packet_id ≠ temp.packet_id
      · simpa [hid] using h
      · simp only [hid, reduceIte] at h
        rcases hpl : p.payload with m | m | m | m | m | i <;> simp only [hpl] at h
        · rcases recv_prepare_accept_state s p m with heq | ⟨st, heq⟩
          · rwa [heq] at h
          · rw [heq, isSome_dlookup_dictUpdate] at h
            exact h
        · rcases recv_prepare_reply_accept_state s m with heq | ⟨st, heq⟩
          · rwa [heq] at h
          · rw [heq, isSome_dlookup_dictUpdate] at h
            exact h
        · rcases recv_accept_accept_state s p m with heq | ⟨st, heq⟩
          · rwa [heq] at h
          · rw [heq, isSome_dlookup_dictUpdate] at h
            exact h
        · rwa [recv_accept_reply_accept_state s m] at h
        · rwa [recv_decided_request_accept_state s m] at h
        · exact h
  · simpa [hdst] using h

/-! ### Claim theorems -/

/-- C9: no operation of the embedded `Paxos` class ever inserts an entry into
`accept_state` (each mutator at most rewrites or erases existing entries, as
the first five conjuncts state), and on a freshly constructed peer the first
read of `accept_state[seq]` — in `recv_prepare`, `recv_accept`, the
proposal-number computation of `propose`, or the reject branch of
`recv_prepare_reply` — raises `KeyError` instead of installing a default
`np=0, na=0, va=""` entry. -/
theorem c9_accept_state_never_populated :
    (∀ (s : PaxosState) (p : Packet) (m : PrepareRequestMsg) (k : Int),
        (dlookup (recv_prepare s p m).1.accept_state k).isSome = true →
        (dlookup s.accept_state k).isSome = true) ∧
    (∀ (s : PaxosState) (p : Packet) (m : AcceptRequestMsg) (k : Int),
        (dlookup (recv_accept s p m).1.accept_state k).isSome = true →
        (dlookup s.accept_state k).isSome = true) ∧
    (∀ (s : PaxosState) (m : PrepareReplyMsg) (k : Int),
        (dlookup (recv_prepare_reply s m).1.accept_state k).isSome = true →
        (dlookup s.accept_state k).isSome = true) ∧
    (∀ (s : PaxosState) (k : Int),
        (dlookup (do_mem_shrink s).1.accept_state k).isSome = true →
        (dlookup s.accept_state k).isSome = true) ∧
    (∀ (s : PaxosState) (p : Packet) (k : Int),
        (dlookup (put s p).1.accept_state k).isSome = true →
        (dlookup s.accept_state k).isSome = true) ∧
    (∀ (seq n pid : Int) (src : String),
        (recv_prepare freshPeer ⟨pid, src, "", .prepareRequest ⟨seq, n⟩⟩ ⟨seq, n⟩).2
          = .error .keyError) ∧
    (∀ (seq n pid : Int) (src v : String),
        (recv_accept freshPeer ⟨pid, src, "", .acceptRequest ⟨seq, n, v⟩⟩ ⟨seq, n, v⟩).2
          = .error .keyError) ∧
    (∀ seq : Int, (propose_prepare_phase freshPeer seq).2 = .error .keyError) ∧
    (recv_prepare_reply c9Peer ⟨7, false, 3, ""⟩).2 = .error .keyError := by
  refine ⟨?_, ?_, ?_, ?_, ?_, ?_, ?_, ?_, ?_⟩
  · intro s p m k h
    rcases recv_prepare_accept_state s p m with heq | ⟨st, heq⟩
    · rwa [heq] at h
    · rw [heq, isSome_dlookup_dictUpdate] at h
      exact h
  · intro s p m k h
    rcases recv_accept_accept_state s p m with heq | ⟨st, heq⟩
    · rwa [heq] at h
    · rw [heq, isSome_dlookup_dictUpdate] at h
      exact h
  · intro s m k h
    rcases recv_prepare_reply_accept_state s m with heq | ⟨st, heq⟩
    · rwa [heq] at h
    · rw [heq, isSome_dlookup_dictUpdate] at h
      exact h
  · exact do_mem_shrink_accept_state
  · exact put_accept_state
  · intro seq n pid src
    by_cases hs : seq > (0 : Int)
    · simp [recv_prepare, freshPeer, init, hs, dlookup]
    · simp [recv_prepare, freshPeer, init, hs, dlookup]
  · intro seq n pid src v
    simp [recv_accept, freshPeer, init, dlookup]
  · intro seq
    simp [propose_prepare_phase, freshPeer, init, dlookup]
  · decide

/-- C9 witness: instantiating the no-insert part of `c9_accept_state_never_populated`
at a peer that does hold an entry for instance 7 and a delivered prepare
request for it. -/
theorem c9_accept_state_never_populated_witness :
    (dlookup c3Peer.accept_state 7).isSome = true :=
  c9_accept_state_never_populated.1 c3Peer c3Pkt ⟨7, 9⟩ 7 (by decide)

/-- C10: `status` evaluates `min()`, which takes the minimum of `done_seqs`;
on a freshly constructed peer `done_seqs` is empty, so every `status(seq)`
call raises `ValueError` instead of returning a `(Fate, value)` pair; and no
operation ever appends to `done_seqs` — `recv_decided_request` only assigns
to an existing index (its length is preserved) and `do_mem_shrink` only
reads the list. -/
theorem c10_status_raises_on_fresh_peer :
    (∀ seq : Int, (status freshPeer seq).2 = .error .valueError) ∧
    freshPeer.done_seqs = [] ∧
    (∀ (s : PaxosState) (m : DecidedRequestMsg),
        (recv_decided_request s m).1.done_seqs.length = s.done_seqs.length) ∧
    (∀ s : PaxosState, (do_mem_shrink s).1.done_seqs = s.done_seqs) := by
  refine ⟨fun seq => rfl, rfl, ?_, ?_⟩
  · intro s m
    simp only [recv_decided_request]
    rcases h : ({ s with values := dictInsert s.values m.inst m.value } : PaxosState).done_seqs.get? m.sender with _ | z
    · simp only [h]
    · simp only [h]
      by_cases h2 : z < m.done_seq
      · simp [h2, List.length_set]
      · simp [h2]
  · intro s
    simp only [do_mem_shrink]
    rcases hmin : listMin s.done_seqs with _ | mins
    · simp only [hmin]
    · simp only [hmin]
      rcases hfind : s.accept_state.find? (fun p => p.1 ≤ mins) with _ | q
      · simp only [hfind]
      · obtain ⟨seq, st⟩ := q
        simp only [hfind]
        by_cases hv : (dlookup s.values seq).isSome <;> simp [hv]

/-- C8: on a peer whose done watermarks are `[3]` (and whose tables hold no
stale entries), `min()` returns 5 — two more than the minimum watermark —
although the claim and the docstring of `Paxos.min` promise one more than
the minimum (4): `do_mem_shrink` already returns `mins + 1` and `min` adds
1 again. -/
theorem c8_min_returns_plus_two :
    (minFn c8Peer).2 = .ok 5 ∧ listMin c8Peer.done_seqs = some 3 ∧ (5 : Int) ≠ 3 + 1 := by
  refine ⟨rfl, rfl, by decide⟩

/-- C4: `start(5, "v")` on a freshly constructed peer raises `max_seq_seen`
to 5 but emits no packet whatsoever — line 129 evaluates `self.propose(seq,
v)`, and `propose` is a generator function, so the call merely builds a
generator object that is dropped; no `PrepareRequest` is broadcast. Even if
the generator were driven, its first step would raise `KeyError` reading
`accept_state[5]`. -/
theorem c4_start_broadcasts_nothing :
    start freshPeer 5 "v" = ({ freshPeer with max_seq_seen := 5 }, []) ∧
    (propose_prepare_phase freshPeer 5).2 = .error .keyError := by
  refine ⟨by decide, rfl⟩

/-- C3: `put` discards a `PrepareRequest` — a request, not a reply — whose
packet id (5) differs from the round token (1) this peer holds for the
request's instance: the peer state is returned unchanged and no handler
runs, whereas dispatching the same packet to `recv_prepare` (as the claim
requires for every request) would raise the promise to `np = 9` and emit a
reply to the sender. -/
theorem c3_request_discarded_by_token :
    put c3Peer c3Pkt = (c3Peer, .ok []) ∧
    dlookup (recv_prepare c3Peer c3Pkt ⟨7, 9⟩).1.accept_state 7
      = some { np := 9, na := 0, va := "" } ∧
    (recv_prepare c3Peer c3Pkt ⟨7, 9⟩).2
      = .ok [{ packet_id := 1, src := "A", dst := "B",
               payload := .prepareReply ⟨7, true, 0, ""⟩ }] := by
  refine ⟨by decide, by decide, by decide⟩

theorem send_packet_to_payloads (s : PaxosState) (pl : Payload) (peer : String) :
    (send_packet_to s pl peer).2.map Packet.payload = if peer = s.id then [] else [pl] := by
  unfold send_packet_to new_packet
  split <;> simp

theorem recv_prepare_entry (s : PaxosState) (p : Packet) (m : PrepareRequestMsg)
    (st : State) (h : dlookup s.accept_state m.inst = some st) :
    dlookup (recv_prepare s p m).1.accept_state m.inst
      = some (prepare_step st m.inst m.proposal).1 := by
  have hacc : (if m.inst > s.max_seq_seen then { s with max_seq_seen := m.inst } else s).accept_state
      = s.accept_state := by split <;> rfl
  simp only [recv_prepare, hacc, h]
  rcases hps : prepare_step st m.inst m.proposal with ⟨st2, reply⟩
  simp only [hps]
  rw [(send_packet_to_fields _ _ _).1]
  simp [hacc, dlookup_dictUpdate, h]

theorem recv_prepare_payloads (s : PaxosState) (p : Packet) (m : PrepareRequestMsg)
    (st : State) (h : dlookup s.accept_state m.inst = some st) :
    ∃ outs, (recv_prepare s p m).2 = .ok outs ∧
      outs.map Packet.payload
        = if p.src = s.id then []
          else [.prepareReply (prepare_step st m.inst m.proposal).2] := by
  have hacc : (if m.inst > s.max_seq_seen then { s with max_seq_seen := m.inst } else s).accept_state
      = s.accept_state := by split <;> rfl
  have hid : (if m.inst > s.max_seq_seen then { s with max_seq_seen := m.inst } else s).id
      = s.id := by split <;> rfl
  simp only [recv_prepare, hacc, h]
  rcases hps : prepare_step st m.inst m.proposal with ⟨st2, reply⟩
  simp only [hps]
  refine ⟨_, rfl, ?_⟩
  rw [send_packet_to_payloads]
  simp [hid]

theorem recv_accept_entry (s : PaxosState) (p : Packet) (m : AcceptRequestMsg)
    (st : State) (h : dlookup s.accept_state m.inst = some st) :
    dlookup (recv_accept s p m).1.accept_state m.inst
      = some (accept_step st m.inst m.proposal m.value).1 := by
  simp only [recv_accept, h]
  rcases hps : accept_step st m.inst m.proposal m.value with ⟨st2, reply⟩
  simp only [hps]
  rw [(send_packet_to_fields _ _ _).1]
  simp [dlookup_dictUpdate, h]

theorem recv_prepare_reply_entry (s : PaxosState) (m : PrepareReplyMsg)
    (temp : ProposeInfo) (st : State)
    (htemp : dlookup s.propose_data m.inst = some temp)
    (h : dlookup s.accept_state m.inst = some st) :
    dlookup (recv_prepare_reply s m).1.accept_state m.inst
      = some (if m.ok = false ∧ m.proposal > st.np
              then { st with np := m.proposal } else st) := by
  simp only [recv_prepare_reply, htemp]
  by_cases hok : m.ok
  · simp [hok, h]
  · simp only [hok, Bool.false_eq_true, reduceIte, h]
    by_cases hgt : m.proposal > st.np
    · simp [hok, hgt, dlookup_dictUpdate, h]
    · simp [hok, hgt, h]

theorem recv_prepare_reply_round (s : PaxosState) (m : PrepareReplyMsg)
    (temp : ProposeInfo) (htemp : dlookup s.propose_data m.inst = some temp) :
    dlookup (recv_prepare_reply s m).1.propose_data m.inst
      = some (if m.ok then tally_prepare temp m s.peers.length else temp) := by
  simp only [recv_prepare_reply, htemp]
  by_cases hok : m.ok
  · simp [hok, dlookup_dictUpdate, htemp]
  · simp only [hok, Bool.false_eq_true, reduceIte]
    rcases h2 : dlookup s.accept_state m.inst with _ | st
    · simp [h2, htemp, hok]
    · simp only [h2]
      by_cases hgt : m.proposal > st.np
      · simp [hgt, htemp, hok]
      · simp [hgt, htemp, hok]

theorem recv_accept_reply_round (s : PaxosState) (m : AcceptReplyMsg)
    (temp : ProposeInfo) (htemp : dlookup s.propose_data m.inst = some temp) :
    dlookup (recv_accept_reply s m).1.propose_data m.inst
      = some (if m.ok then tally_accept temp s.peers.length else temp) := by
  simp only [recv_accept_reply, htemp]
  by_cases hok : m.ok
  · simp [hok, dlookup_dictUpdate, htemp]
  · simp [hok, htemp]

/-- C1: the single-decided-value safety invariant is violated by the protocol
logic. In `c1Trace` — an interleaving of handler-emitted messages in which
peer 0 completes a round for instance 7 with value "x" (its Decided
broadcast reaching only itself) and peer 1 then completes a round with
value "y" — both rounds reach `accepted` and the two peers record different
decided values for the same instance, because the accept phase re-proposes
the proposer's own value instead of the best-seen accepted one. -/
theorem c1_two_decided_values :
    dlookup c1Trace.1.values 7 = some "x" ∧
    dlookup c1Trace.2.values 7 = some "y" ∧
    (dlookup c1Trace.1.propose_data 7).map ProposeInfo.accepted = some true ∧
    (dlookup c1Trace.2.propose_data 7).map ProposeInfo.accepted = some true ∧
    ("x" : String) ≠ "y" := by
  refine ⟨by decide, by decide, by decide, by decide, by decide⟩

/-- C2: a proposer round that tallied an affirmative Prepare reply reporting
the previously accepted pair `(na = 5, va = "x")` (so its round state holds
`maxna = 5, v1 = "x"`) nevertheless broadcasts `AcceptRequest(7, n, "y")` —
the value handed to `propose` — because line 149 passes `v` and never reads
`ProposeInfo.maxna`/`v1`. -/
theorem c2_accept_ignores_best_seen :
    (dlookup c2Prepared.propose_data 7).map ProposeInfo.v1 = some "x" ∧
    (dlookup c2Prepared.propose_data 7).map ProposeInfo.maxna = some 5 ∧
    (dlookup c2Prepared.propose_data 7).map ProposeInfo.prepared = some true ∧
    (broadcast_accept_request c2Prepared 7 6 "y").2
      = .ok [{ packet_id := 1, src := "B", dst := "",
               payload := .acceptRequest ⟨7, 6, "y"⟩ }] ∧
    ("y" : String) ≠ "x" := by
  refine ⟨by decide, by decide, by decide, by decide, by decide⟩

/-- C5 counterexample: an acceptor holding `np = 5, na = 3, va = "x"` for
instance 7 rejects `PrepareRequest(7, 4)` with the reply
`PrepareReply(7, False, 0, "")` — the `proposal` field of the rejection is
the literal 0, not the acceptor's current `np = 5`, refuting the claim that
the rejection carries `np`. -/
theorem c5_reject_reply_carries_zero :
    (recv_prepare c5Peer ⟨11, "B", "", .prepareRequest ⟨7, 4⟩⟩ ⟨7, 4⟩).2
      = .ok [{ packet_id := 1, src := "A", dst := "B",
               payload := .prepareReply ⟨7, false, 0, ""⟩ }] ∧
    dlookup (recv_prepare c5Peer ⟨11, "B", "", .prepareRequest ⟨7, 4⟩⟩ ⟨7, 4⟩).1.accept_state 7
      = some { np := 5, na := 3, va := "x" } ∧
    (0 : Int) ≠ 5 := by
  refine ⟨by decide, by decide, by decide⟩

/-- C5 (amended): on `PrepareRequest(seq, n)` with current entry `(np, na,
va)`: if `n > np` the acceptor raises `np` to `n` and the affirmative reply
carries `na` and `va`; otherwise the entry is unchanged and the negative
reply carries the literal proposal 0 and an empty value (not the acceptor's
current `np`). -/
theorem c5_prepare_handler_amended :
    ∀ (s : PaxosState) (p : Packet) (m : PrepareRequestMsg) (st : State),
      dlookup s.accept_state m.inst = some st →
      ((m.proposal > st.np →
          dlookup (recv_prepare s p m).1.accept_state m.inst
            = some { st with np := m.proposal } ∧
          ∃ outs, (recv_prepare s p m).2 = .ok outs ∧
            outs.map Packet.payload
              = if p.src = s.id then []
                else [.prepareReply ⟨m.inst, true, st.na, st.va⟩]) ∧
       (¬ m.proposal > st.np →
          dlookup (recv_prepare s p m).1.accept_state m.inst = some st ∧
          ∃ outs, (recv_prepare s p m).2 = .ok outs ∧
            outs.map Packet.payload
              = if p.src = s.id then []
                else [.prepareReply ⟨m.inst, false, 0, ""⟩])) := by
  intro s p m st h
  constructor
  · intro hgt
    constructor
    · rw [recv_prepare_entry s p m st h]
      simp [prepare_step, hgt]
    · obtain ⟨outs, h1, h2⟩ := recv_prepare_payloads s p m st h
      refine ⟨outs, h1, ?_⟩
      rw [h2]
      simp [prepare_step, hgt]
  · intro hgt
    constructor
    · rw [recv_prepare_entry s p m st h]
      simp [prepare_step, hgt]
    · obtain ⟨outs, h1, h2⟩ := recv_prepare_payloads s p m st h
      refine ⟨outs, h1, ?_⟩
      rw [h2]
      simp [prepare_step, hgt]

/-- C5 witness: the amended statement applied to `c5Peer` for both a
rejected (`n = 4 ≤ np = 5`) and a granted (`n = 9 > 5`) prepare request. -/
theorem c5_prepare_handler_amended_witness :
    dlookup (recv_prepare c5Peer ⟨11, "B", "", .prepareRequest ⟨7, 4⟩⟩ ⟨7, 4⟩).1.accept_state 7
      = some { np := 5, na := 3, va := "x" } ∧
    dlookup (recv_prepare c5Peer ⟨12, "B", "", .prepareRequest ⟨7, 9⟩⟩ ⟨7, 9⟩).1.accept_state 7
      = some { np := 9, na := 3, va := "x" } :=
  ⟨((c5_prepare_handler_amended c5Peer ⟨11, "B", "", .prepareRequest ⟨7, 4⟩⟩ ⟨7, 4⟩
      { np := 5, na := 3, va := "x" } (by decide)).2 (by decide)).1,
   ((c5_prepare_handler_amended c5Peer ⟨12, "B", "", .prepareRequest ⟨7, 9⟩⟩ ⟨7, 9⟩
      { np := 5, na := 3, va := "x" } (by decide)).1 (by decide)).1⟩

/-- C6 counterexample: an acceptor holding `np = 5, na = 5, va = "x"`
processes `AcceptRequest(7, 5, "y")` — a proposal number merely equal to
its current `na`, not strictly higher — and overwrites `va` with "y",
refuting the claim that a set `va` changes only under a strictly
higher-numbered Accept. -/
theorem c6_va_overwritten_at_equal_na :
    dlookup (recv_accept c6Peer ⟨11, "B", "", .acceptRequest ⟨7, 5, "y"⟩⟩ ⟨7, 5, "y"⟩).1.accept_state 7
      = some { np := 5, na := 5, va := "y" } ∧
    ¬ ((5 : Int) > 5) ∧ ("y" : String) ≠ "x" := by
  refine ⟨by decide, by decide, by decide⟩

/-- C6 (amended): across the three acceptor-state mutators — `recv_prepare`,
`recv_accept`, and the reject branch of `recv_prepare_reply` — `np` is
monotonically non-decreasing and `na ≤ np` is preserved; `na` and `va`
change only in `recv_accept`, and then only when the proposal number is at
least the current `np` (hence at least `na`, equality included — not
necessarily strictly greater than `na`). -/
theorem c6_acceptor_invariants_amended :
    (∀ (s : PaxosState) (p : Packet) (m : PrepareRequestMsg) (st st' : State),
        dlookup s.accept_state m.inst = some st →
        dlookup (recv_prepare s p m).1.accept_state m.inst = some st' →
        st.np ≤ st'.np ∧ (st.na ≤ st.np → st'.na ≤ st'.np) ∧
        st'.na = st.na ∧ st'.va = st.va) ∧
    (∀ (s : PaxosState) (p : Packet) (m : AcceptRequestMsg) (st st' : State),
        dlookup s.accept_state m.inst = some st →
        dlookup (recv_accept s p m).1.accept_state m.inst = some st' →
        st.np ≤ st'.np ∧ (st.na ≤ st.np → st'.na ≤ st'.np) ∧
        (st.na ≤ st.np → st.na ≤ st'.na) ∧
        (st'.va ≠ st.va →
          m.proposal ≥ st.np ∧ st' = ⟨m.proposal, m.proposal, m.value⟩)) ∧
    (∀ (s : PaxosState) (m : PrepareReplyMsg) (st st' : State),
        dlookup s.accept_state m.inst = some st →
        dlookup (recv_prepare_reply s m).1.accept_state m.inst = some st' →
        st.np ≤ st'.np ∧ (st.na ≤ st.np → st'.na ≤ st'.np) ∧
        st'.na = st.na ∧ st'.va = st.va) := by
  refine ⟨?_, ?_, ?_⟩
  · intro s p m st st' h h'
    rw [recv_prepare_entry s p m st h] at h'
    by_cases hgt : m.proposal > st.np
    · simp only [prepare_step, hgt, reduceIte, Option.some.injEq] at h'
      subst h'
      refine ⟨by simp; omega, by intro hle; simp; omega, rfl, rfl⟩
    · simp only [prepare_step, hgt, reduceIte, Option.some.injEq] at h'
      subst h'
      exact ⟨le_refl _, fun hle => hle, rfl, rfl⟩
  · intro s p m st st' h h'
    rw [recv_accept_entry s p m st h] at h'
    by_cases hge : m.proposal ≥ st.np
    · simp only [accept_step, hge, reduceIte, Option.some.injEq] at h'
      subst h'
      refine ⟨by simp; omega, by intro hle; simp, by intro hle; simp; omega, ?_⟩
      intro hva
      exact ⟨hge, rfl⟩
    · simp only [accept_step, hge, reduceIte, Option.some.injEq] at h'
      subst h'
      exact ⟨le_refl _, fun hle => hle, fun _ => le_refl _, fun hva => absurd rfl hva⟩
  · intro s m st st' h h'
    rcases htemp : dlookup s.propose_data m.inst with _ | temp
    · have hstate : (recv_prepare_reply s m).1 = s := by
        simp [recv_prepare_reply, htemp]
      rw [hstate, h] at h'
      obtain rfl : st = st' := by simpa using h'
      exact ⟨le_refl _, fun hle => hle, rfl, rfl⟩
    · rw [recv_prepare_reply_entry s m temp st htemp h] at h'
      by_cases hcond : m.ok = false ∧ m.proposal > st.np
      · simp only [hcond, reduceIte, Option.some.injEq] at h'
        obtain ⟨h1, h2⟩ := hcond
        subst h'
        refine ⟨by simp; omega, by intro hle; simp; omega, rfl, rfl⟩
      · simp only [hcond, reduceIte, Option.some.injEq] at h'
        subst h'
        exact ⟨le_refl _, fun hle => hle, rfl, rfl⟩

/-- C6 witness: the accept conjunct of the amended statement applied to
`c6Peer` and `AcceptRequest(7, 9, "z")`. -/
theorem c6_acceptor_invariants_amended_witness :
    (5 : Int) ≤ 9 ∧ ((5 : Int) ≤ 5 → (9 : Int) ≤ 9) ∧
    ((5 : Int) ≤ 5 → (5 : Int) ≤ 9) ∧
    (({ np := 9, na := 9, va := "z" } : State).va ≠ ({ np := 5, na := 5, va := "x" } : State).va →
      (9 : Int) ≥ 5 ∧ ({ np := 9, na := 9, va := "z" } : State) = ⟨9, 9, "z"⟩) :=
  c6_acceptor_invariants_amended.2.1 c6Peer ⟨11, "B", "", .acceptRequest ⟨7, 9, "z"⟩⟩
    ⟨7, 9, "z"⟩ { np := 5, na := 5, va := "x" } { np := 9, na := 9, va := "z" }
    (by decide) (by decide)

/-- C7 counterexample: with 3 peers, tallying the very same affirmative
prepare reply twice — a duplicated message from one single peer, which the
handler cannot distinguish since it never records who replied — sets
`prepared` with only one distinct replier, refuting the claim that a
strict majority of distinct peers is required (one peer is not a quorum of
three: ¬(2·1 > 3)). -/
theorem c7_duplicate_replies_reach_quorum :
    (dlookup (recv_prepare_reply (recv_prepare_reply c7Peer c7Reply).1 c7Reply).1.propose_data 7).map
        ProposeInfo.prepared = some true ∧
    (dlookup (recv_prepare_reply (recv_prepare_reply c7Peer c7Reply).1 c7Reply).1.propose_data 7).map
        ProposeInfo.prepare_count = some 2 ∧
    c7Peer.peers.length = 3 ∧ ¬ (2 * 1 > 3) := by
  refine ⟨by decide, by decide, by decide, by decide⟩

/-- C7 (amended): the `prepared` (resp. `accepted`) flag of a round flips
only when the handler tallies an affirmative reply and the new count of
tallied affirmative replies — duplicates from the same peer each counting —
strictly exceeds half the peer count; that threshold equals
⌊peerCount/2⌋ + 1 tallied replies. -/
theorem c7_quorum_counting_amended :
    (∀ (s : PaxosState) (m : PrepareReplyMsg) (temp temp' : ProposeInfo),
        dlookup s.propose_data m.inst = some temp →
        dlookup (recv_prepare_reply s m).1.propose_data m.inst = some temp' →
        temp.prepared = false → temp'.prepared = true →
        m.ok = true ∧ 2 * (temp.prepare_count + 1) > s.peers.length) ∧
    (∀ (s : PaxosState) (m : AcceptReplyMsg) (temp temp' : ProposeInfo),
        dlookup s.propose_data m.inst = some temp →
        dlookup (recv_accept_reply s m).1.propose_data m.inst = some temp' →
        temp.accepted = false → temp'.accepted = true →
        m.ok = true ∧ 2 * (temp.accept_count + 1) > s.peers.length) ∧
    (∀ c n : Nat, 2 * c > n ↔ c ≥ n / 2 + 1) := by
  refine ⟨?_, ?_, ?_⟩
  · intro s m temp temp' htemp h' hfalse htrue
    rw [recv_prepare_reply_round s m temp htemp] at h'
    by_cases hok : m.ok
    · refine ⟨hok, ?_⟩
      simp only [hok, reduceIte, Option.some.injEq] at h'
      subst h'
      by_cases hq : 2 * (temp.prepare_count + 1) > s.peers.length
      · exact hq
      · exfalso
        by_cases hmax : m.proposal > temp.maxna <;>
          simp [tally_prepare, hmax, hq, hfalse] at htrue
    · exfalso
      simp only [hok, Bool.false_eq_true, reduceIte, Option.some.injEq] at h'
      subst h'
      rw [hfalse] at htrue
      exact Bool.false_ne_true htrue
  · intro s m temp temp' htemp h' hfalse htrue
    rw [recv_accept_reply_round s m temp htemp] at h'
    by_cases hok : m.ok
    · refine ⟨hok, ?_⟩
      simp only [hok, reduceIte, Option.some.injEq] at h'
      subst h'
      by_cases hq : 2 * (temp.accept_count + 1) > s.peers.length
      · exact hq
      · exfalso
        simp [tally_accept, hq, hfalse] at htrue
    · exfalso
      simp only [hok, Bool.false_eq_true, reduceIte, Option.some.injEq] at h'
      subst h'
      rw [hfalse] at htrue
      exact Bool.false_ne_true htrue
  · intro c n
    omega

/-- C7 witness: the prepare conjunct applied to a single-peer configuration,
where one tallied affirmative reply is already a strict majority. -/
theorem c7_quorum_counting_amended_witness :
    (⟨7, true, 0, ""⟩ : PrepareReplyMsg).ok = true ∧
    2 * (({ packet_id := 1 } : ProposeInfo).prepare_count + 1) > c7Solo.peers.length :=
  c7_quorum_counting_amended.1 c7Solo ⟨7, true, 0, ""⟩ { packet_id := 1 }
    { packet_id := 1, prepare_count := 1, prepared := true }
    (by decide) (by decide) (by decide) (by decide)
